import Mathlib

/-!
Verification of the dialogue-dispatcher lambda
(`13-AWS/3/Activities/02-Ins_Intro_Lambda/Solved/lambda_function.py`).

Shallow embedding: Python floats are modelled as `PFloat` (a rational, NaN,
or a signed infinity); Python exceptions become the `Except PyError` monad;
the price oracle `get_btcprice()` and the current time `datetime.now()` are
passed in as explicit parameters; the in-place mutation of the request's
slot dictionary (`slots[...] = None` writes through the alias returned by
`get_slots`) is rendered by returning the post-state of the request
alongside the response.
-/

deriving instance DecidableEq for Except

/-- The Python exceptions the embedded functions can raise. -/
inductive PyError where
  | valueError
  | typeError
  | zeroDivisionError
  | exception (msg : String)
deriving DecidableEq, Repr

/-- A Python float as it is used by this program: NaN, a signed infinity,
or a finite value (modelled exactly as a rational). -/
inductive PFloat where
  | nan
  | inf (neg : Bool)
  | num (q : ℚ)
deriving DecidableEq, Repr

/-- Split a character list on a separator character (every occurrence). -/
def splitOnChar (sep : Char) : List Char → List (List Char)
  | [] => [[]]
  | c :: cs =>
    let rest := splitOnChar sep cs
    if c = sep then [] :: rest
    else
      match rest with
      | [] => [[c]]
      | g :: gs => (c :: g) :: gs

/-- Value of a list of decimal digit characters (only meaningful when
`isDigits` holds). -/
def digitsToNat (cs : List Char) : ℕ :=
  cs.foldl (fun n c => 10 * n + (c.toNat - 48)) 0

/-- All characters are decimal digits. -/
def isDigits (cs : List Char) : Bool :=
  cs.all (fun c => c.isDigit)

/-- Exponent part of a float literal: optional sign followed by digits. -/
def parseExp? : List Char → Option ℤ
  | '+' :: rest =>
    if !rest.isEmpty && isDigits rest then some (digitsToNat rest) else none
  | '-' :: rest =>
    if !rest.isEmpty && isDigits rest then some (-(digitsToNat rest : ℤ)) else none
  | rest =>
    if !rest.isEmpty && isDigits rest then some (digitsToNat rest) else none

/-- Mantissa of a float literal: digits with an optional decimal point,
at least one digit overall (`"1"`, `"1."`, `".5"`, `"1.5"`). -/
def parseMantissa? (cs : List Char) : Option ℚ :=
  match splitOnChar '.' cs with
  | [ip] =>
    if !ip.isEmpty && isDigits ip then some (digitsToNat ip : ℚ) else none
  | [ip, fp] =>
    if ip.isEmpty && fp.isEmpty then none
    else if isDigits ip && isDigits fp then
      some ((digitsToNat ip : ℚ) + (digitsToNat fp : ℚ) / (10 : ℚ) ^ fp.length)
    else none
  | _ => none

/-- Unsigned part of `float(s)`: named infinity/NaN forms (case-insensitive)
or mantissa with optional exponent.  (The model omits Python's surrounding
whitespace stripping and digit-group underscores; no property here involves
them.) -/
def parseUnsignedFloat? (cs : List Char) (neg : Bool) : Option PFloat :=
  let low := cs.map Char.toLower
  if low = "inf".toList || low = "infinity".toList then some (.inf neg)
  else if low = "nan".toList then some .nan
  else
    match splitOnChar 'e' low with
    | [m] => (parseMantissa? m).map (fun q => .num (if neg then -q else q))
    | [m, e] => do
      let q ← parseMantissa? m
      let ex ← parseExp? e
      some (.num ((if neg then -q else q) * (10 : ℚ) ^ ex))
    | _ => none

/-- The strings accepted by Python's `float(·)` constructor, and their
values; `none` corresponds to `float(s)` raising `ValueError`. -/
def floatLit? (s : String) : Option PFloat :=
  match s.toList with
  | '+' :: rest => parseUnsignedFloat? rest false
  | '-' :: rest => parseUnsignedFloat? rest true
  | cs => parseUnsignedFloat? cs false

/-- `parse_float(n)` from the source: `float(n)` with `ValueError` caught and
turned into `float("nan")`.  `float(None)` raises `TypeError`, which the
`except ValueError` clause does not catch. -/
def parse_float : Option String → Except PyError PFloat
  | none => .error .typeError
  | some s =>
    match floatLit? s with
    | some v => .ok v
    | none => .ok .nan

/-- `parse_float` applied to a string, which never raises. -/
def pfOfString (s : String) : PFloat :=
  (floatLit? s).getD .nan

/-- Python's `x <= 0` on a float: False for NaN (NaN compares false with
everything), True exactly for `-inf` and non-positive finite values. -/
def pfLeZero : PFloat → Bool
  | .nan => false
  | .inf neg => neg
  | .num q => decide (q ≤ 0)

/-- Python float division `x / y`: raises `ZeroDivisionError` when the
divisor is (finite) zero, propagates NaN, and follows IEEE rules on
infinities. -/
def pdiv (x y : PFloat) : Except PyError PFloat :=
  match y with
  | .num q =>
    if q = 0 then .error .zeroDivisionError
    else
      match x with
      | .nan => .ok .nan
      | .inf n => .ok (.inf (xor n (decide (q < 0))))
      | .num p => .ok (.num (p / q))
  | .nan => .ok .nan
  | .inf _ =>
    match x with
    | .nan => .ok .nan
    | .inf _ => .ok .nan
    | .num _ => .ok (.num 0)

/-- Round a rational to the nearest integer, ties to even (Python's
`round`). -/
def rte (x : ℚ) : ℤ :=
  let f := ⌊x⌋
  if x - f < 1 / 2 then f
  else if 1 / 2 < x - f then f + 1
  else if f % 2 = 0 then f else f + 1

/-- Python's `round(x, 4)` on a float: NaN and infinities pass through,
finite values are rounded to 4 decimal places, ties to even. -/
def round4 : PFloat → PFloat
  | .nan => .nan
  | .inf n => .inf n
  | .num q => .num ((rte (q * 10000) : ℚ) / 10000)

/-- A calendar date, as produced by `datetime.strptime(s, "%Y-%m-%d")`. -/
structure Date where
  year : ℕ
  month : ℕ
  day : ℕ
deriving DecidableEq, Repr

/-- Gregorian leap year. -/
def isLeap (y : ℕ) : Bool :=
  y % 4 = 0 && (y % 100 != 0 || y % 400 = 0)

/-- Number of days in a month (0 for an invalid month number). -/
def daysInMonth (y m : ℕ) : ℕ :=
  if m = 1 || m = 3 || m = 5 || m = 7 || m = 8 || m = 10 || m = 12 then 31
  else if m = 4 || m = 6 || m = 9 || m = 11 then 30
  else if m = 2 then (if isLeap y then 29 else 28)
  else 0

/-- `datetime.strptime(s, "%Y-%m-%d")`: exactly four year digits, one or two
month and day digits, dash-separated, with the ranges `datetime` enforces
(month 1–12, day 1–days-in-month).  `none` corresponds to the uncaught
`ValueError`. -/
def strptime_Ymd (s : String) : Option Date :=
  match splitOnChar '-' s.toList with
  | [ys, ms, ds] =>
    if ys.length = 4 && isDigits ys
        && (ms.length = 1 || ms.length = 2) && isDigits ms
        && (ds.length = 1 || ds.length = 2) && isDigits ds then
      let y := digitsToNat ys
      let m := digitsToNat ms
      let d := digitsToNat ds
      if 1 ≤ y && 1 ≤ m && m ≤ 12 && 1 ≤ d && d ≤ daysInMonth y m then
        some ⟨y, m, d⟩
      else none
    else none
  | _ => none

/-- `relativedelta(now, birth_date).years`: whole years between the two
dates — the year difference, minus one when the month/day of `today` has not
yet reached the birth month/day. -/
def ageYears (today birth : Date) : ℤ :=
  (today.year : ℤ) - (birth.year : ℤ) -
    (if today.month < birth.month ∨
        (today.month = birth.month ∧ today.day < birth.day) then 1 else 0)

/-- Content of a Lex message: either a plain string (validation messages) or
the fulfillment banner `"Thank you for your information; you can get {btc}
Bitcoins for your ${amount} dollars."` with its two formatted values. -/
inductive Content where
  | text (s : String)
  | banner (btc : PFloat) (origAmount : Option String)
deriving DecidableEq, Repr

/-- The message dictionaries `{"contentType": ..., "content": ...}` built by
the program. -/
structure Message where
  contentType : String
  content : Content
deriving DecidableEq, Repr

/-- The dictionary returned by `build_validation_result`; `message` is
absent when the third argument was `None`. -/
structure ValidationResult where
  isValid : Bool
  violatedSlot : Option String
  message : Option Message
deriving DecidableEq, Repr

/-- `build_validation_result(is_valid, violated_slot, message_content)`. -/
def build_validation_result (is_valid : Bool) (violated_slot : Option String)
    (message_content : Option String) : ValidationResult :=
  match message_content with
  | none => ⟨is_valid, violated_slot, none⟩
  | some c => ⟨is_valid, violated_slot, some ⟨"PlainText", .text c⟩⟩

/-- The birthday validation message (two adjacent Python string literals,
hence one string). -/
def birthdayMsg : String :=
  "You should be at least 18 years old to use this service, please provide a different date of birth."

/-- The amount validation message. -/
def amountMsg : String :=
  "The amount to convert should be greater than zero, please provide a correct amount in dollars to convert."

/-- The amount half of `validate_data` (the code the birthday block falls
through to): absent amount is fine; otherwise `parse_float` the string and
flag it when `<= 0`. -/
def validate_amount (cad_amount : Option String) : ValidationResult :=
  match cad_amount with
  | none => build_validation_result true none none
  | some a =>
    if pfLeZero (pfOfString a) then
      build_validation_result false (some "cadAmount") (some amountMsg)
    else
      build_validation_result true none none

/-- `validate_data(birthday, cad_amount, intent_request)` (the
`intent_request` parameter is unused in the source and dropped; `today`
stands for `datetime.now()`).  A present birthday is parsed with
`strptime` — failure raises an uncaught `ValueError` — and rejected when the
computed age is under 18; otherwise control falls through to the amount
check. -/
def validate_data (birthday cad_amount : Option String) (today : Date) :
    Except PyError ValidationResult :=
  match birthday with
  | none => .ok (validate_amount cad_amount)
  | some b =>
    match strptime_Ymd b with
    | none => .error .valueError
    | some birth_date =>
      if ageYears today birth_date < 18 then
        .ok (build_validation_result false (some "birthday") (some birthdayMsg))
      else .ok (validate_amount cad_amount)

/-- The slot mapping of the `convertCAD` intent (the only two slot names the
program ever reads or writes). -/
structure Slots where
  birthday : Option String
  cadAmount : Option String
deriving DecidableEq, Repr

/-- `intent_request["currentIntent"]`. -/
structure CurrentIntent where
  name : String
  slots : Slots
deriving DecidableEq, Repr

/-- Session attributes: an opaque string-to-string mapping passed through
unchanged. -/
abbrev SessionAttributes := List (String × String)

/-- The incoming Lex event. -/
structure IntentRequest where
  currentIntent : CurrentIntent
  invocationSource : String
  sessionAttributes : SessionAttributes
deriving DecidableEq, Repr

/-- `get_slots(intent_request)`. -/
def get_slots (intent_request : IntentRequest) : Slots :=
  intent_request.currentIntent.slots

/-- `slots[name] = v` on the two-slot mapping. -/
def setSlot (s : Slots) (name : String) (v : Option String) : Slots :=
  if name = "birthday" then { s with birthday := v }
  else if name = "cadAmount" then { s with cadAmount := v }
  else s

/-- The `dialogAction` part of the three response shapes. -/
inductive DialogAction where
  | elicitSlot (intentName : String) (slots : Slots) (slotToElicit : Option String)
      (message : Option Message)
  | delegate (slots : Slots)
  | close (fulfillmentState : String) (message : Message)
deriving DecidableEq, Repr

/-- A response event returned to Lex. -/
structure LexResponse where
  sessionAttributes : SessionAttributes
  dialogAction : DialogAction
deriving DecidableEq, Repr

/-- `elicit_slot(session_attributes, intent_name, slots, slot_to_elicit,
message)`. -/
def elicit_slot (session_attributes : SessionAttributes) (intent_name : String)
    (slots : Slots) (slot_to_elicit : Option String) (message : Option Message) :
    LexResponse :=
  ⟨session_attributes, .elicitSlot intent_name slots slot_to_elicit message⟩

/-- `delegate(session_attributes, slots)`. -/
def delegate (session_attributes : SessionAttributes) (slots : Slots) : LexResponse :=
  ⟨session_attributes, .delegate slots⟩

/-- `close(session_attributes, fulfillment_state, message)`. -/
def close (session_attributes : SessionAttributes) (fulfillment_state : String)
    (message : Message) : LexResponse :=
  ⟨session_attributes, .close fulfillment_state message⟩

/-- `convert_cad(intent_request)`.  `today` stands for `datetime.now()` and
`btcPrice` for the value fetched by `get_btcprice()`.  The result carries the
post-state of `intent_request`: `slots = get_slots(intent_request)` aliases
the request's slot dictionary, so `slots[violatedSlot] = None` also updates
the request. -/
def convert_cad (intent_request : IntentRequest) (today : Date) (btcPrice : PFloat) :
    Except PyError (LexResponse × IntentRequest) :=
  let birthday := (get_slots intent_request).birthday
  let cad_amount := (get_slots intent_request).cadAmount
  let source := intent_request.invocationSource
  if source = "DialogCodeHook" then
    let slots := get_slots intent_request
    match validate_data birthday cad_amount today with
    | .error e => .error e
    | .ok validation_result =>
      if !validation_result.isValid then
        -- `slots[validation_result["violatedSlot"]] = None`; `validate_data`
        -- never pairs `isValid = false` with an absent violated slot, so the
        -- `none` arm is dead code.
        let slots1 :=
          match validation_result.violatedSlot with
          | some f => setSlot slots f none
          | none => slots
        let intent_request1 :=
          { intent_request with
              currentIntent := { intent_request.currentIntent with slots := slots1 } }
        .ok (elicit_slot intent_request1.sessionAttributes
              intent_request1.currentIntent.name slots1
              validation_result.violatedSlot validation_result.message,
             intent_request1)
      else
        .ok (delegate intent_request.sessionAttributes (get_slots intent_request),
             intent_request)
  else
    match parse_float cad_amount with
    | .error e => .error e
    | .ok amt =>
      match pdiv amt btcPrice with
      | .error e => .error e
      | .ok btc0 =>
        let btc_value := round4 btc0
        .ok (close intent_request.sessionAttributes "Fulfilled"
              ⟨"PlainText", .banner btc_value cad_amount⟩,
             intent_request)

/-- `dispatch(intent_request)`: route to `convert_cad` or raise a fatal
`Exception` naming the unsupported intent. -/
def dispatch (intent_request : IntentRequest) (today : Date) (btcPrice : PFloat) :
    Except PyError (LexResponse × IntentRequest) :=
  let intent_name := intent_request.currentIntent.name
  if intent_name = "convertCAD" then convert_cad intent_request today btcPrice
  else .error (.exception ("Intent with name " ++ intent_name ++ " not supported"))

/-- `lambda_handler(event, context)` merely forwards to `dispatch`. -/
def lambda_handler (event : IntentRequest) (today : Date) (btcPrice : PFloat) :
    Except PyError (LexResponse × IntentRequest) :=
  dispatch event today btcPrice

/-! ## Helper lemmas -/

/-- `parse_float` on a string never raises: it returns the parsed literal or
NaN. -/
theorem parse_float_some (s : String) : parse_float (some s) = .ok (pfOfString s) := by
  simp only [parse_float, pfOfString]
  cases h : floatLit? s <;> rfl

/-- Division only raises when the divisor is the float zero. -/
theorem pdiv_ok (x y : PFloat) (h : y ≠ .num 0) : ∃ v, pdiv x y = .ok v := by
  cases y with
  | num q =>
    have hq : q ≠ 0 := fun h0 => h (by rw [h0])
    cases x with
    | nan => exact ⟨.nan, by simp [pdiv, hq]⟩
    | inf n => exact ⟨.inf (xor n (decide (q < 0))), by simp [pdiv, hq]⟩
    | num p => exact ⟨.num (p / q), by simp [pdiv, hq]⟩
  | nan => exact ⟨.nan, rfl⟩
  | inf n => cases x <;> exact ⟨_, rfl⟩

/-! ## Claims -/

/-- C1 (counterexample): the claim says a non-parseable amount string with an
absent birth date yields an invalid result naming `cadAmount`; on the code,
`"abc"` parses to NaN, `NaN <= 0` is False, so `validate_data` returns a
VALID result with no violated field. -/
theorem C1_counterexample :
    floatLit? "abc" = none ∧
    validate_data none (some "abc") ⟨2020, 1, 1⟩ = .ok ⟨true, none, none⟩ := by
  decide

/-- C1 (amended): for every amount string that is not parseable as a float,
with a valid or absent birth date, `parse_float` turns it into the NaN
sentinel without raising, and — because `NaN <= 0` is False — `validate_data`
returns a VALID result (no violated field, no message). -/
theorem C1_amended_nan_is_valid (s : String) (birthday : Option String) (today : Date)
    (hs : floatLit? s = none)
    (hb : birthday = none ∨ ∃ b d, birthday = some b ∧ strptime_Ymd b = some d ∧
      18 ≤ ageYears today d) :
    parse_float (some s) = .ok .nan ∧
    validate_data birthday (some s) today = .ok ⟨true, none, none⟩ := by
  have hnan : pfOfString s = .nan := by simp [pfOfString, hs]
  have hva : validate_amount (some s) = ⟨true, none, none⟩ := by
    simp [validate_amount, hnan, pfLeZero, build_validation_result]
  refine ⟨by rw [parse_float_some, hnan], ?_⟩
  rcases hb with hb | ⟨b, d, hb, hd, hage⟩
  · subst hb
    simp [validate_data, hva]
  · subst hb
    simp only [validate_data, hd]
    rw [if_neg (not_lt.mpr hage), hva]

/-- C1 (witness for the amended theorem). -/
theorem C1_witness :
    parse_float (some "abc") = .ok .nan ∧
    validate_data none (some "abc") ⟨2020, 1, 1⟩ = .ok ⟨true, none, none⟩ :=
  C1_amended_nan_is_valid "abc" none ⟨2020, 1, 1⟩ (by decide) (Or.inl rfl)

/-- C4: any present birth date parsing to a date whose computed age is under
18 makes `validate_data` return the invalid result naming `birthday`, with
the fixed re-prompt message, whatever the amount is; the result carries a
single violated field. -/
theorem C4_underage_fails_first (b : String) (d : Date) (amt : Option String) (today : Date)
    (hb : strptime_Ymd b = some d) (hage : ageYears today d < 18) :
    validate_data (some b) amt today =
      .ok ⟨false, some "birthday", some ⟨"PlainText", .text birthdayMsg⟩⟩ := by
  simp [validate_data, hb, hage, build_validation_result]

/-- C4 (witness): born 2010-01-01, seen on 2020-06-01 (age 10), with a
perfectly fine amount. -/
theorem C4_witness :
    validate_data (some "2010-01-01") (some "100") ⟨2020, 6, 1⟩ =
      .ok ⟨false, some "birthday", some ⟨"PlainText", .text birthdayMsg⟩⟩ :=
  C4_underage_fails_first "2010-01-01" ⟨2010, 1, 1⟩ (some "100") ⟨2020, 6, 1⟩
    (by decide) (by decide)

/-- C5: when the birth date is absent or computes to age ≥ 18 and the amount
is absent or parses to a positive number, `validate_data` returns the valid
result with no violated field and no message. -/
theorem C5_valid_inputs_pass (birthday amt : Option String) (today : Date)
    (hb : birthday = none ∨ ∃ b d, birthday = some b ∧ strptime_Ymd b = some d ∧
      18 ≤ ageYears today d)
    (ha : amt = none ∨ ∃ a q, amt = some a ∧ floatLit? a = some (.num q) ∧ 0 < q) :
    validate_data birthday amt today = .ok ⟨true, none, none⟩ := by
  have hva : validate_amount amt = ⟨true, none, none⟩ := by
    rcases ha with ha | ⟨a, q, ha, hq, hpos⟩
    · subst ha; rfl
    · subst ha
      have hnum : pfOfString a = .num q := by simp [pfOfString, hq]
      simp [validate_amount, hnum, pfLeZero, build_validation_result, not_le.mpr hpos]
  rcases hb with hb | ⟨b, d, hb, hd, hage⟩
  · subst hb
    simp [validate_data, hva]
  · subst hb
    simp only [validate_data, hd]
    rw [if_neg (not_lt.mpr hage), hva]

/-- C5 (witness): an adult, a positive amount. -/
theorem C5_witness :
    validate_data (some "1990-01-01") (some "1000") ⟨2020, 6, 1⟩ =
      .ok ⟨true, none, none⟩ :=
  C5_valid_inputs_pass (some "1990-01-01") (some "1000") ⟨2020, 6, 1⟩
    (Or.inr ⟨"1990-01-01", ⟨1990, 1, 1⟩, rfl, by decide, by decide⟩)
    (Or.inr ⟨"1000", 1000, rfl, by decide, by decide⟩)

/-- C10: a present birthday slot that does not parse as `YYYY-MM-DD` makes
`validate_data` raise the (uncaught) `ValueError` from `strptime` instead of
returning a ValidationResult. -/
theorem C10_malformed_date_raises (b : String) (amt : Option String) (today : Date)
    (h : strptime_Ymd b = none) :
    validate_data (some b) amt today = .error .valueError := by
  simp [validate_data, h]

/-- C10 (witness). -/
theorem C10_witness :
    validate_data (some "hello") none ⟨2020, 1, 1⟩ = .error .valueError :=
  C10_malformed_date_raises "hello" none ⟨2020, 1, 1⟩ (by decide)

/-- C3: in the validation phase, a failed validation makes `convert_cad`
return an ElicitSlot response eliciting exactly the violated field, carrying
the validation message, with that slot's value cleared in the response's
slot mapping (and, through the dict alias, in the request). -/
theorem C3_invalid_elicits_violated_slot (req : IntentRequest) (today : Date)
    (price : PFloat) (vr : ValidationResult) (f : String)
    (hsrc : req.invocationSource = "DialogCodeHook")
    (hval : validate_data (get_slots req).birthday (get_slots req).cadAmount today = .ok vr)
    (hinv : vr.isValid = false) (hf : vr.violatedSlot = some f) :
    convert_cad req today price =
      .ok (elicit_slot req.sessionAttributes req.currentIntent.name
            (setSlot (get_slots req) f none) (some f) vr.message,
          { req with currentIntent :=
              { req.currentIntent with slots := setSlot (get_slots req) f none } }) := by
  simp only [get_slots] at hval
  simp [convert_cad, hsrc, hval, hinv, hf, elicit_slot, get_slots]

/-- C3 (witness): an under-age birthday is re-elicited and its slot value
cleared. -/
theorem C3_witness :
    convert_cad ⟨⟨"convertCAD", ⟨some "2010-01-01", some "100"⟩⟩, "DialogCodeHook", []⟩
        ⟨2020, 6, 1⟩ (.num 50000) =
      .ok (elicit_slot [] "convertCAD"
            (setSlot ⟨some "2010-01-01", some "100"⟩ "birthday" none) (some "birthday")
            (some ⟨"PlainText", .text birthdayMsg⟩),
          { currentIntent := ⟨"convertCAD", setSlot ⟨some "2010-01-01", some "100"⟩ "birthday" none⟩,
            invocationSource := "DialogCodeHook",
            sessionAttributes := [] }) :=
  C3_invalid_elicits_violated_slot
    ⟨⟨"convertCAD", ⟨some "2010-01-01", some "100"⟩⟩, "DialogCodeHook", []⟩
    ⟨2020, 6, 1⟩ (.num 50000)
    ⟨false, some "birthday", some ⟨"PlainText", .text birthdayMsg⟩⟩ "birthday"
    rfl (by decide) rfl rfl

/-- C6: in the validation phase, a passing validation makes `convert_cad`
return a Delegate response whose slots are the request's slots and whose
session attributes are the request's session attributes, with the request
left unchanged. -/
theorem C6_valid_delegates_unchanged (req : IntentRequest) (today : Date)
    (price : PFloat) (vr : ValidationResult)
    (hsrc : req.invocationSource = "DialogCodeHook")
    (hval : validate_data (get_slots req).birthday (get_slots req).cadAmount today = .ok vr)
    (hv : vr.isValid = true) :
    convert_cad req today price =
      .ok (delegate req.sessionAttributes (get_slots req), req) := by
  simp only [get_slots] at hval
  simp [convert_cad, hsrc, hval, hv, delegate, get_slots]

/-- C6 (witness). -/
theorem C6_witness :
    convert_cad ⟨⟨"convertCAD", ⟨some "1990-01-01", some "100"⟩⟩, "DialogCodeHook", []⟩
        ⟨2020, 6, 1⟩ (.num 50000) =
      .ok (delegate [] ⟨some "1990-01-01", some "100"⟩,
          ⟨⟨"convertCAD", ⟨some "1990-01-01", some "100"⟩⟩, "DialogCodeHook", []⟩) :=
  C6_valid_delegates_unchanged
    ⟨⟨"convertCAD", ⟨some "1990-01-01", some "100"⟩⟩, "DialogCodeHook", []⟩
    ⟨2020, 6, 1⟩ (.num 50000) ⟨true, none, none⟩ rfl (by decide) rfl

/-- C7: an intent name other than `convertCAD` makes `dispatch` raise a
fatal `Exception` whose text names the unsupported intent; no dialogue
response is ever returned. -/
theorem C7_unsupported_intent_raises (req : IntentRequest) (today : Date) (price : PFloat)
    (h : req.currentIntent.name ≠ "convertCAD") :
    dispatch req today price =
      .error (.exception ("Intent with name " ++ req.currentIntent.name ++ " not supported")) ∧
    ∀ r, dispatch req today price ≠ .ok r := by
  have hd : dispatch req today price =
      .error (.exception ("Intent with name " ++ req.currentIntent.name ++ " not supported")) := by
    simp [dispatch, h]
  exact ⟨hd, fun r hr => by rw [hd] at hr; exact Except.noConfusion hr⟩

/-- C7 (witness). -/
theorem C7_witness :
    dispatch ⟨⟨"greeting", ⟨none, none⟩⟩, "DialogCodeHook", []⟩ ⟨2020, 1, 1⟩ (.num 1) =
      .error (.exception ("Intent with name " ++ "greeting" ++ " not supported")) ∧
    ∀ r, dispatch ⟨⟨"greeting", ⟨none, none⟩⟩, "DialogCodeHook", []⟩ ⟨2020, 1, 1⟩ (.num 1) ≠
      .ok r :=
  C7_unsupported_intent_raises ⟨⟨"greeting", ⟨none, none⟩⟩, "DialogCodeHook", []⟩
    ⟨2020, 1, 1⟩ (.num 1) (by decide)

/-- The invariant of C8 holds of the amount half of the validation pass. -/
theorem validate_amount_invariant (a : Option String) :
    (((validate_amount a).violatedSlot = none ∧ (validate_amount a).message = none) ↔
      (validate_amount a).isValid = true) ∧
    ((validate_amount a).violatedSlot.isSome ↔ (validate_amount a).message.isSome) := by
  cases a with
  | none => simp [validate_amount, build_validation_result]
  | some s =>
    by_cases hp : pfLeZero (pfOfString s) <;>
      simp [validate_amount, hp, build_validation_result]

/-- C8: every ValidationResult a validation pass produces satisfies the
invariant: violated field and message are both present or both absent, and
both absent exactly when the result is valid. -/
theorem C8_validation_result_invariant (b a : Option String) (today : Date)
    (vr : ValidationResult)
    (h : validate_data b a today = .ok vr) :
    ((vr.violatedSlot = none ∧ vr.message = none) ↔ vr.isValid = true) ∧
    (vr.violatedSlot.isSome ↔ vr.message.isSome) := by
  cases b with
  | none =>
    simp only [validate_data, Except.ok.injEq] at h
    subst h
    exact validate_amount_invariant a
  | some bs =>
    cases hst : strptime_Ymd bs with
    | none => simp [validate_data, hst] at h
    | some d =>
      simp only [validate_data, hst] at h
      by_cases hage : ageYears today d < 18
      · rw [if_pos hage] at h
        simp only [Except.ok.injEq] at h
        subst h
        simp [build_validation_result]
      · rw [if_neg hage] at h
        simp only [Except.ok.injEq] at h
        subst h
        exact validate_amount_invariant a

/-- C8 (witness). -/
theorem C8_witness :
    (((⟨true, none, none⟩ : ValidationResult).violatedSlot = none ∧
        (⟨true, none, none⟩ : ValidationResult).message = none) ↔
      (⟨true, none, none⟩ : ValidationResult).isValid = true) ∧
    ((⟨true, none, none⟩ : ValidationResult).violatedSlot.isSome ↔
      (⟨true, none, none⟩ : ValidationResult).message.isSome) :=
  C8_validation_result_invariant none none ⟨2020, 1, 1⟩ ⟨true, none, none⟩ (by decide)

/-- C2 (counterexample): the claim quantifies over every non-DialogCodeHook
request, but a request whose amount slot is absent makes the fulfillment
branch call `parse_float(None)`, which raises an uncaught `TypeError` — no
Close response is returned. -/
theorem C2_counterexample :
    convert_cad ⟨⟨"convertCAD", ⟨some "1990-01-01", none⟩⟩, "FulfillmentCodeHook", []⟩
        ⟨2020, 6, 1⟩ (.num 50000) = .error .typeError := by
  decide

/-- C2 (amended): for every non-DialogCodeHook request whose amount slot is
present and with a non-zero oracle price, `convert_cad` returns a Close
response with fulfillment state Fulfilled whose message carries the parsed
amount divided by the price, rounded to 4 decimal places, together with the
original amount string. -/
theorem C2_amended_fulfillment (req : IntentRequest) (today : Date) (price : PFloat)
    (s : String)
    (hsrc : req.invocationSource ≠ "DialogCodeHook")
    (hamt : (get_slots req).cadAmount = some s)
    (hp : price ≠ .num 0) :
    ∃ v, pdiv (pfOfString s) price = .ok v ∧
      convert_cad req today price =
        .ok (close req.sessionAttributes "Fulfilled"
              ⟨"PlainText", .banner (round4 v) (some s)⟩, req) := by
  obtain ⟨v, hv⟩ := pdiv_ok (pfOfString s) price hp
  refine ⟨v, hv, ?_⟩
  simp only [get_slots] at hamt
  simp [convert_cad, hsrc, hamt, parse_float_some, hv, close, get_slots]

/-- C2 (witness, with the spec's example): amount `"1000"` at price 50000
yields exactly 0.02 bitcoins in the Close message. -/
theorem C2_witness :
    (∃ v, pdiv (pfOfString "1000") (.num 50000) = .ok v ∧
      convert_cad ⟨⟨"convertCAD", ⟨some "1990-01-01", some "1000"⟩⟩, "FulfillmentCodeHook", []⟩
          ⟨2020, 6, 1⟩ (.num 50000) =
        .ok (close [] "Fulfilled" ⟨"PlainText", .banner (round4 v) (some "1000")⟩,
            ⟨⟨"convertCAD", ⟨some "1990-01-01", some "1000"⟩⟩, "FulfillmentCodeHook", []⟩)) ∧
    pdiv (pfOfString "1000") (.num 50000) = .ok (.num (2 / 100)) ∧
    round4 (.num (2 / 100)) = .num (2 / 100) := by
  refine ⟨C2_amended_fulfillment
      ⟨⟨"convertCAD", ⟨some "1990-01-01", some "1000"⟩⟩, "FulfillmentCodeHook", []⟩
      ⟨2020, 6, 1⟩ (.num 50000) "1000" (by decide) rfl (by decide), ?_, ?_⟩
  · have h1 : pfOfString "1000" = .num 1000 := by decide
    rw [h1]
    norm_num [pdiv]
  · norm_num [round4, rte]

/-- C9 (counterexample): the claim says dispatch never changes the incoming
request, but in the validation phase with an invalid slot the code clears
the violated slot through the alias returned by `get_slots`, mutating the
request: the post-state differs from the input. -/
theorem C9_counterexample :
    dispatch ⟨⟨"convertCAD", ⟨some "2010-01-01", some "100"⟩⟩, "DialogCodeHook", []⟩
        ⟨2020, 6, 1⟩ (.num 50000) =
      .ok (elicit_slot [] "convertCAD" ⟨none, some "100"⟩ (some "birthday")
            (some ⟨"PlainText", .text birthdayMsg⟩),
          ⟨⟨"convertCAD", ⟨none, some "100"⟩⟩, "DialogCodeHook", []⟩) ∧
    (⟨⟨"convertCAD", ⟨none, some "100"⟩⟩, "DialogCodeHook", []⟩ : IntentRequest) ≠
      ⟨⟨"convertCAD", ⟨some "2010-01-01", some "100"⟩⟩, "DialogCodeHook", []⟩ := by
  decide

/-- C9 (amended): whenever dispatch returns (rather than raising), the
request's intent name, invocation source and session attributes are
untouched, and the request is either unchanged or — exactly in the
validation-phase invalid path — equal to the input with one slot's value
cleared. -/
theorem C9_amended_frame (req : IntentRequest) (today : Date) (price : PFloat)
    (resp : LexResponse) (req1 : IntentRequest)
    (h : dispatch req today price = .ok (resp, req1)) :
    req1.currentIntent.name = req.currentIntent.name ∧
    req1.invocationSource = req.invocationSource ∧
    req1.sessionAttributes = req.sessionAttributes ∧
    (req1 = req ∨ ∃ f, req1 =
      { req with currentIntent :=
          { req.currentIntent with slots := setSlot req.currentIntent.slots f none } }) := by
  by_cases hname : req.currentIntent.name = "convertCAD"
  · simp only [dispatch, hname, if_pos] at h
    simp only [convert_cad, get_slots] at h
    by_cases hsrc : req.invocationSource = "DialogCodeHook"
    · rw [if_pos hsrc] at h
      cases hval : validate_data req.currentIntent.slots.birthday
          req.currentIntent.slots.cadAmount today with
      | error e => rw [hval] at h; simp at h
      | ok vr =>
        rw [hval] at h
        by_cases hv : vr.isValid = true
        · simp [hv, delegate] at h
          obtain ⟨-, h2⟩ := h
          subst h2
          exact ⟨rfl, rfl, rfl, Or.inl rfl⟩
        · have hv' : vr.isValid = false := by
            revert hv; cases vr.isValid <;> simp
          cases hviol : vr.violatedSlot with
          | some f =>
            simp [hv', hviol, elicit_slot] at h
            obtain ⟨-, h2⟩ := h
            subst h2
            exact ⟨rfl, rfl, rfl, Or.inr ⟨f, rfl⟩⟩
          | none =>
            simp [hv', hviol, elicit_slot] at h
            obtain ⟨-, h2⟩ := h
            subst h2
            exact ⟨rfl, rfl, rfl, Or.inl rfl⟩
    · rw [if_neg hsrc] at h
      split at h
      · simp at h
      · split at h
        · simp at h
        · simp [close] at h
          obtain ⟨-, h2⟩ := h
          subst h2
          exact ⟨rfl, rfl, rfl, Or.inl rfl⟩
  · simp [dispatch, hname] at h

/-- C9 (witness for the amended theorem): a valid validation-phase request
comes back unchanged. -/
theorem C9_witness :
    ("convertCAD" : String) = "convertCAD" ∧
    ("DialogCodeHook" : String) = "DialogCodeHook" ∧
    ([] : SessionAttributes) = [] ∧
    ((⟨⟨"convertCAD", ⟨some "1990-01-01", some "100"⟩⟩, "DialogCodeHook", []⟩ : IntentRequest) =
        ⟨⟨"convertCAD", ⟨some "1990-01-01", some "100"⟩⟩, "DialogCodeHook", []⟩ ∨
      ∃ f, (⟨⟨"convertCAD", ⟨some "1990-01-01", some "100"⟩⟩, "DialogCodeHook", []⟩ : IntentRequest) =
        ⟨⟨"convertCAD", setSlot ⟨some "1990-01-01", some "100"⟩ f none⟩, "DialogCodeHook", []⟩) :=
  C9_amended_frame
    ⟨⟨"convertCAD", ⟨some "1990-01-01", some "100"⟩⟩, "DialogCodeHook", []⟩
    ⟨2020, 6, 1⟩ (.num 50000)
    (delegate [] ⟨some "1990-01-01", some "100"⟩)
    ⟨⟨"convertCAD", ⟨some "1990-01-01", some "100"⟩⟩, "DialogCodeHook", []⟩
    (by decide)
